import Mathlib

/-!
Verification of the PulseMaker control loop (src/src/main.cpp).

The sketch is a single Arduino control loop around three library timers
(RBD::Timer), a debounced button and the SFMT pseudorandom generator.
The timers, the debouncer and the generator internals are external
libraries; following the specification they are modelled as per-iteration
event inputs (has the trial period fired, has the blink timer expired,
has the minute timer fired, has a debounced press edge been accepted) and
the generator as an abstract stream `rng : Nat → Nat` together with a
draw index in the state.  Everything the loop body itself does — the
static state it owns, the order of its four blocks, the writes it issues
to pins and to the serial channel — is translated directly below.
-/

namespace PulseMaker

/-- UINT32_MAX from stdint, used by the sketch to build the scale constant. -/
def UINT32_MAX : Nat := 2 ^ 32 - 1

/-- HIGH_RATE from main.cpp line 34: target for the fast preset. -/
def HIGH_RATE : Nat := 48000

/-- LOW_RATE from main.cpp line 35: target for the slow preset. -/
def LOW_RATE : Nat := 1200

/-- THRESHOLD_CONSTANT from main.cpp line 36: UINT32_MAX >> 18. -/
def THRESHOLD_CONSTANT : Nat := UINT32_MAX >>> 18

/-- PULSE_DURATION from main.cpp line 37 (microseconds of pulse-low hold). -/
def PULSE_DURATION : Nat := 1000

/-- BLINK_TIME from main.cpp line 39 (milliseconds of LED hold). -/
def BLINK_TIME : Nat := 20

/-- SEED from main.cpp line 27. -/
def SEED : Nat := 0x43313337

/-- Reduction modulo 2^32: the effect of storing a product in a uint32_t. -/
def u32 (n : Nat) : Nat := n % 2 ^ 32

/-- Observable actions issued by setup() and loop(): pin writes, blink-timer
restarts and serial prints. -/
inductive Event where
  | blinkRestart
  | pulseLow
  | pulseHigh
  | ledLow
  | serialNum (n : Nat)
  | serialHeader
  | serialReport (ms : Nat) (n : Nat)
deriving DecidableEq, Repr

/-- The per-iteration inputs of loop(): the current millis() reading and the
results of the four library queries the body makes, in source order:
button.ButtonPressed (the accepted debounced press edge),
repetion_timer.onRestart (trial tick), blink_timer.onExpired, and
minute_timer.onRestart. -/
structure LoopInput where
  ms : Nat
  buttonPressed : Bool
  trialFire : Bool
  blinkExpired : Bool
  minuteFire : Bool
deriving DecidableEq, Repr

/-- The state owned by the sketch: the three static locals of loop()
(threshold, fast, cpm), the draw position of the SFMT stream, and the
levels of the two output pins, plus a count of blink-timer restarts
standing for the externally-held blink timer being re-armed. -/
structure LoopState where
  threshold : Nat
  fast : Bool
  cpm : Nat
  rngIndex : Nat
  pulsePin : Bool
  ledPin : Bool
  blinkRestarts : Nat
deriving DecidableEq, Repr

/-- Lines 82 to 91 of main.cpp: on an accepted press edge, flip the rate flag
and recompute the threshold from the other preset. -/
def buttonBlock (pressed : Bool) (s : LoopState) : LoopState :=
  if pressed then
    if s.fast then
      { s with fast := false, threshold := u32 (LOW_RATE * THRESHOLD_CONSTANT) }
    else
      { s with fast := true, threshold := u32 (HIGH_RATE * THRESHOLD_CONSTANT) }
  else s

/-- Lines 93 to 104 of main.cpp: on a trial tick, draw one value from the
generator; if it is strictly below the threshold, restart the blink timer,
drive the pulse pin low then back high, and increment cpm. -/
def trialBlock (rng : Nat → Nat) (fire : Bool) (s : LoopState) :
    LoopState × List Event :=
  if fire then
    let r := rng s.rngIndex
    let s' := { s with rngIndex := s.rngIndex + 1 }
    if r < s.threshold then
      ({ s' with blinkRestarts := s'.blinkRestarts + 1, pulsePin := true,
                 cpm := s'.cpm + 1 },
       [Event.blinkRestart, Event.pulseLow, Event.pulseHigh])
    else (s', [])
  else (s, [])

/-- Lines 105 to 108 of main.cpp: when the blink timer expires, write the LED
pin low. -/
def blinkBlock (expired : Bool) (s : LoopState) : LoopState × List Event :=
  if expired then ({ s with ledPin := false }, [Event.ledLow]) else (s, [])

/-- Lines 111 to 115 of main.cpp: on the minute tick, print one CSV record
with the elapsed milliseconds and cpm, then reset cpm to zero. -/
def minuteBlock (fire : Bool) (ms : Nat) (s : LoopState) :
    LoopState × List Event :=
  if fire then ({ s with cpm := 0 }, [Event.serialReport ms s.cpm])
  else (s, [])

/-- One execution of loop() (lines 75 to 116): the four blocks in source
order — button edge, trial tick, blink expiry, minute report. -/
def loop (rng : Nat → Nat) (i : LoopInput) (s : LoopState) :
    LoopState × List Event :=
  let s1 := buttonBlock i.buttonPressed s
  let p2 := trialBlock rng i.trialFire s1
  let p3 := blinkBlock i.blinkExpired p2.1
  let p4 := minuteBlock i.minuteFire i.ms p3.1
  (p4.1, p2.2 ++ p3.2 ++ p4.2)

/-- setup() (lines 50 to 73) plus the static initialisers of loop(): the LED
pin is written low, the pulse pin high, the generator is seeded and its
first five draws are printed followed by the CSV header; the loop state
starts fast with the high threshold, cpm zero and the stream at draw 5. -/
def setup (rng : Nat → Nat) : LoopState × List Event :=
  ({ threshold := u32 (HIGH_RATE * THRESHOLD_CONSTANT), fast := true,
     cpm := 0, rngIndex := 5, pulsePin := true, ledPin := false,
     blinkRestarts := 0 },
   [Event.serialNum (rng 0), Event.serialNum (rng 1), Event.serialNum (rng 2),
    Event.serialNum (rng 3), Event.serialNum (rng 4), Event.serialHeader])

/-- Repeated execution of loop() over a list of per-iteration inputs,
collecting the emitted events in order. -/
def run (rng : Nat → Nat) : List LoopInput → LoopState → LoopState × List Event
  | [], s => (s, [])
  | i :: rest, s =>
    let p := loop rng i s
    let q := run rng rest p.1
    (q.1, p.2 ++ q.2)

/-- The two rate presets of the sketch. -/
inductive RateSetting where
  | fast
  | slow
deriving DecidableEq, Repr

/-- Target rate of each preset, as in lines 34 and 35 of main.cpp. -/
def targetRate : RateSetting → Nat
  | RateSetting.fast => HIGH_RATE
  | RateSetting.slow => LOW_RATE

/-- Threshold computed for each preset, as in lines 77, 85 and 89 of
main.cpp: the target rate times THRESHOLD_CONSTANT in uint32 arithmetic. -/
def presetThreshold (r : RateSetting) : Nat :=
  u32 (targetRate r * THRESHOLD_CONSTANT)

/-- An input carrying only an accepted button press edge. -/
def edgeIn : LoopInput :=
  { ms := 0, buttonPressed := true, trialFire := false, blinkExpired := false,
    minuteFire := false }

/-- An input carrying only a trial tick. -/
def trialIn : LoopInput :=
  { ms := 0, buttonPressed := false, trialFire := true, blinkExpired := false,
    minuteFire := false }

/-- An input carrying only a minute-report tick. -/
def minuteIn : LoopInput :=
  { ms := 60000, buttonPressed := false, trialFire := false,
    blinkExpired := false, minuteFire := true }

/-- A random stream that always draws zero (below every positive threshold). -/
def rngZero : Nat → Nat := fun _ => 0

/-- A random stream that always draws UINT32_MAX (at or above every uint32
threshold). -/
def rngMax : Nat → Nat := fun _ => UINT32_MAX

/-- A random stream that always draws exactly the fast threshold value. -/
def rngAtThreshold : Nat → Nat := fun _ => u32 (HIGH_RATE * THRESHOLD_CONSTANT)

/-- An input where both an accepted button edge and a trial tick occur. -/
def bothIn : LoopInput :=
  { ms := 0, buttonPressed := true, trialFire := true, blinkExpired := false,
    minuteFire := false }

/-- The button block never touches the draw index. -/
lemma buttonBlock_rngIndex (p : Bool) (s : LoopState) :
    (buttonBlock p s).rngIndex = s.rngIndex := by
  unfold buttonBlock
  split
  · split <;> rfl
  · rfl

/-- The button block never touches cpm. -/
lemma buttonBlock_cpm (p : Bool) (s : LoopState) :
    (buttonBlock p s).cpm = s.cpm := by
  unfold buttonBlock
  split
  · split <;> rfl
  · rfl

/-- The button block never touches the LED pin. -/
lemma buttonBlock_ledPin (p : Bool) (s : LoopState) :
    (buttonBlock p s).ledPin = s.ledPin := by
  unfold buttonBlock
  split
  · split <;> rfl
  · rfl

/-- The trial block never touches the threshold. -/
lemma trialBlock_threshold (rng : Nat → Nat) (f : Bool) (s : LoopState) :
    (trialBlock rng f s).1.threshold = s.threshold := by
  unfold trialBlock
  split
  · dsimp only
    split <;> rfl
  · rfl

/-- The trial block never touches the rate flag. -/
lemma trialBlock_fast (rng : Nat → Nat) (f : Bool) (s : LoopState) :
    (trialBlock rng f s).1.fast = s.fast := by
  unfold trialBlock
  split
  · dsimp only
    split <;> rfl
  · rfl

/-- The trial block never raises the LED pin. -/
lemma trialBlock_ledPin (rng : Nat → Nat) (f : Bool) (s : LoopState) :
    (trialBlock rng f s).1.ledPin = s.ledPin := by
  unfold trialBlock
  split
  · dsimp only
    split <;> rfl
  · rfl

/-- The blink block never touches the threshold. -/
lemma blinkBlock_threshold (e : Bool) (s : LoopState) :
    (blinkBlock e s).1.threshold = s.threshold := by
  unfold blinkBlock
  split <;> rfl

/-- The blink block never touches the rate flag. -/
lemma blinkBlock_fast (e : Bool) (s : LoopState) :
    (blinkBlock e s).1.fast = s.fast := by
  unfold blinkBlock
  split <;> rfl

/-- The minute block never touches the threshold. -/
lemma minuteBlock_threshold (f : Bool) (ms : Nat) (s : LoopState) :
    (minuteBlock f ms s).1.threshold = s.threshold := by
  unfold minuteBlock
  split <;> rfl

/-- The minute block never touches the rate flag. -/
lemma minuteBlock_fast (f : Bool) (ms : Nat) (s : LoopState) :
    (minuteBlock f ms s).1.fast = s.fast := by
  unfold minuteBlock
  split <;> rfl

/-- The minute block never touches the LED pin. -/
lemma minuteBlock_ledPin (f : Bool) (ms : Nat) (s : LoopState) :
    (minuteBlock f ms s).1.ledPin = s.ledPin := by
  unfold minuteBlock
  split <;> rfl

/-- The threshold after one iteration is the threshold left by the button
block: the other three blocks never write it. -/
lemma loop_threshold (rng : Nat → Nat) (i : LoopInput) (s : LoopState) :
    (loop rng i s).1.threshold = (buttonBlock i.buttonPressed s).threshold := by
  unfold loop
  rw [minuteBlock_threshold, blinkBlock_threshold, trialBlock_threshold]

/-- The rate flag after one iteration is the flag left by the button block. -/
lemma loop_fast (rng : Nat → Nat) (i : LoopInput) (s : LoopState) :
    (loop rng i s).1.fast = (buttonBlock i.buttonPressed s).fast := by
  unfold loop
  rw [minuteBlock_fast, blinkBlock_fast, trialBlock_fast]

/-- C2: the controller starts Fast with threshold HIGH_RATE times the scale
constant; one accepted button edge switches to Slow with threshold
LOW_RATE times the scale constant, and a second edge returns to Fast with
the high threshold. -/
theorem toggle_sequence (rng : Nat → Nat) :
    (setup rng).1.fast = true ∧
    (setup rng).1.threshold = u32 (HIGH_RATE * THRESHOLD_CONSTANT) ∧
    (loop rng edgeIn (setup rng).1).1.fast = false ∧
    (loop rng edgeIn (setup rng).1).1.threshold
        = u32 (LOW_RATE * THRESHOLD_CONSTANT) ∧
    (loop rng edgeIn (loop rng edgeIn (setup rng).1).1).1.fast = true ∧
    (loop rng edgeIn (loop rng edgeIn (setup rng).1).1).1.threshold
        = u32 (HIGH_RATE * THRESHOLD_CONSTANT) :=
  ⟨rfl, rfl, rfl, rfl, rfl, rfl⟩

/-- C1: on a trial tick exactly one pseudorandom value is drawn, and the
pulse actions (blink-timer restart, pulse pin low then high, counter
increment) happen iff the drawn value is strictly below the threshold;
at a draw equal to the threshold nothing fires. -/
theorem trial_pulse_iff (rng : Nat → Nat) (s : LoopState) :
    (trialBlock rng true s).1.rngIndex = s.rngIndex + 1 ∧
    (((trialBlock rng true s).2
        = [Event.blinkRestart, Event.pulseLow, Event.pulseHigh] ∧
      (trialBlock rng true s).1.cpm = s.cpm + 1)
        ↔ rng s.rngIndex < s.threshold) ∧
    (rng s.rngIndex = s.threshold →
      (trialBlock rng true s).2 = [] ∧
      (trialBlock rng true s).1.cpm = s.cpm) := by
  by_cases h : rng s.rngIndex < s.threshold
  · refine ⟨by simp [trialBlock, h], by simp [trialBlock, h], ?_⟩
    intro he
    omega
  · exact ⟨by simp [trialBlock, h], by simp [trialBlock, h],
      fun _ => by simp [trialBlock, h]⟩

/-- Witness for C1 at a draw exactly equal to the threshold: no pulse. -/
theorem trial_pulse_iff_witness :
    (trialBlock rngAtThreshold true (setup rngAtThreshold).1).2 = [] ∧
    (trialBlock rngAtThreshold true (setup rngAtThreshold).1).1.cpm
      = (setup rngAtThreshold).1.cpm :=
  (trial_pulse_iff rngAtThreshold (setup rngAtThreshold).1).2.2 (by decide)

/-- C7: a trial tick whose draw is at or above the threshold has no
observable effect: the post-state is the pre-state with only the draw
index advanced by one, and no event is emitted. -/
theorem trial_miss_frame (rng : Nat → Nat) (s : LoopState)
    (h : s.threshold ≤ rng s.rngIndex) :
    (trialBlock rng true s).1 = { s with rngIndex := s.rngIndex + 1 } ∧
    (trialBlock rng true s).2 = [] := by
  have h' : ¬ rng s.rngIndex < s.threshold := Nat.not_lt.mpr h
  exact ⟨by simp [trialBlock, h'], by simp [trialBlock, h']⟩

/-- Witness for C7 with a maximal draw from the startup state. -/
theorem trial_miss_frame_witness :
    (trialBlock rngMax true (setup rngMax).1).1
      = { (setup rngMax).1 with
            rngIndex := (setup rngMax).1.rngIndex + 1 } ∧
    (trialBlock rngMax true (setup rngMax).1).2 = [] :=
  trial_miss_frame rngMax (setup rngMax).1 (by decide)

/-- C6: the button-edge toggle is the sole mutator of the threshold and the
rate flag: an iteration without an accepted edge leaves both unchanged,
and an iteration with an accepted edge performs exactly one toggle. -/
theorem toggle_sole_mutator (rng : Nat → Nat) (i : LoopInput) (s : LoopState) :
    (i.buttonPressed = false →
      (loop rng i s).1.threshold = s.threshold ∧
      (loop rng i s).1.fast = s.fast) ∧
    (i.buttonPressed = true →
      (loop rng i s).1.fast = !s.fast ∧
      (loop rng i s).1.threshold =
        if s.fast then u32 (LOW_RATE * THRESHOLD_CONSTANT)
        else u32 (HIGH_RATE * THRESHOLD_CONSTANT)) := by
  constructor
  · intro hb
    rw [loop_threshold, loop_fast, hb]
    exact ⟨rfl, rfl⟩
  · intro hb
    rw [loop_threshold, loop_fast, hb]
    cases hf : s.fast <;> simp [buttonBlock, hf]

/-- Witness for C6: a trial-only iteration leaves threshold and flag alone,
and an edge iteration toggles them, both from the startup state. -/
theorem toggle_sole_mutator_witness :
    ((loop rngZero trialIn (setup rngZero).1).1.threshold
        = (setup rngZero).1.threshold ∧
      (loop rngZero trialIn (setup rngZero).1).1.fast
        = (setup rngZero).1.fast) ∧
    ((loop rngZero edgeIn (setup rngZero).1).1.fast
        = !(setup rngZero).1.fast ∧
      (loop rngZero edgeIn (setup rngZero).1).1.threshold =
        if (setup rngZero).1.fast then u32 (LOW_RATE * THRESHOLD_CONSTANT)
        else u32 (HIGH_RATE * THRESHOLD_CONSTANT)) :=
  ⟨(toggle_sole_mutator rngZero trialIn (setup rngZero).1).1 rfl,
   (toggle_sole_mutator rngZero edgeIn (setup rngZero).1).2 rfl⟩

/-- C5: one iteration is exactly the four blocks in source order — button
edge, trial, blink expiry, minute report — and when an accepted edge and a
trial tick coincide the toggle is applied first, so the pulse decision
compares the draw against the freshly toggled threshold. -/
theorem fixed_order_toggle_first (rng : Nat → Nat) (i : LoopInput)
    (s : LoopState) :
    loop rng i s =
      (let s1 := buttonBlock i.buttonPressed s
       let p2 := trialBlock rng i.trialFire s1
       let p3 := blinkBlock i.blinkExpired p2.1
       let p4 := minuteBlock i.minuteFire i.ms p3.1
       (p4.1, p2.2 ++ p3.2 ++ p4.2)) ∧
    (i.buttonPressed = true → i.trialFire = true →
      (Event.pulseLow ∈ (loop rng i s).2 ↔
        rng s.rngIndex < (buttonBlock true s).threshold)) := by
  refine ⟨rfl, ?_⟩
  intro hb ht
  obtain ⟨ms, bp, tf, be, mf⟩ := i
  simp only at hb ht
  subst hb ht
  by_cases hr : rng s.rngIndex < (buttonBlock true s).threshold
  · rw [loop]
    dsimp only
    rw [trialBlock]
    simp only [if_pos rfl, buttonBlock_rngIndex, if_pos hr]
    cases be <;> cases mf <;> simp [blinkBlock, minuteBlock, hr]
  · rw [loop]
    dsimp only
    rw [trialBlock]
    simp only [if_pos rfl, buttonBlock_rngIndex, if_neg hr]
    cases be <;> cases mf <;> simp [blinkBlock, minuteBlock, hr]

/-- Witness for C5: edge and trial in the same iteration from startup, with
a zero draw against the toggled (slow) threshold. -/
theorem fixed_order_toggle_first_witness :
    Event.pulseLow ∈ (loop rngZero bothIn (setup rngZero).1).2 ↔
      rngZero (setup rngZero).1.rngIndex
        < (buttonBlock true (setup rngZero).1).threshold :=
  (fixed_order_toggle_first rngZero bothIn (setup rngZero).1).2 rfl rfl

/-- Window accounting check over an event trace: starting with c pulses
already pending, every report event must carry exactly the pulses pending
at its position, and accounting resumes from zero after it. Pulse events
(identified by the pulse-pin low write) raise the pending count by one. -/
def accountedB : Nat → List Event → Bool
  | _, [] => true
  | c, Event.pulseLow :: rest => accountedB (c + 1) rest
  | c, Event.serialReport _ n :: rest => n == c && accountedB 0 rest
  | c, _ :: rest => accountedB c rest

/-- One iteration keeps the accounting in sync: checking its events with the
pre-state cpm pending continues with the post-state cpm pending. -/
lemma accountedB_loop (rng : Nat → Nat) (i : LoopInput) (s : LoopState)
    (es : List Event) :
    accountedB s.cpm ((loop rng i s).2 ++ es)
      = accountedB (loop rng i s).1.cpm es := by
  obtain ⟨ms, bp, tf, be, mf⟩ := i
  rw [loop]
  dsimp only
  have hc := buttonBlock_cpm bp s
  cases tf
  · cases be <;> cases mf <;>
      simp [trialBlock, blinkBlock, minuteBlock, accountedB, hc]
  · by_cases hr :
      rng (buttonBlock bp s).rngIndex < (buttonBlock bp s).threshold
    · cases be <;> cases mf <;>
        simp [trialBlock, blinkBlock, minuteBlock, hr, accountedB, hc]
    · cases be <;> cases mf <;>
        simp [trialBlock, blinkBlock, minuteBlock, hr, accountedB, hc]

/-- Any run keeps the accounting in sync from its initial pending count. -/
lemma run_accountedB (rng : Nat → Nat) (inputs : List LoopInput)
    (s : LoopState) :
    accountedB s.cpm (run rng inputs s).2 = true := by
  induction inputs generalizing s with
  | nil => rfl
  | cons i rest ih =>
    rw [run]
    dsimp only
    rw [accountedB_loop]
    exact ih _

/-- C3: over any run, each reported count equals exactly the number of
pulses fired since the previous report (or since the start), and cpm is
reset to zero by the iteration that reports. -/
theorem window_accounting (rng : Nat → Nat) (inputs : List LoopInput)
    (s : LoopState) :
    accountedB s.cpm (run rng inputs s).2 = true ∧
    (∀ i : LoopInput, i.minuteFire = true → (loop rng i s).1.cpm = 0) := by
  refine ⟨run_accountedB rng inputs s, ?_⟩
  intro i hm
  rw [loop]
  dsimp only
  rw [hm]
  simp [minuteBlock]

/-- Witness for C3: a pulse then a report from the startup state, and the
reset conclusion discharged at the minute-only input. -/
theorem window_accounting_witness :
    accountedB (setup rngZero).1.cpm
        (run rngZero [trialIn, minuteIn] (setup rngZero).1).2 = true ∧
    (loop rngZero minuteIn (setup rngZero).1).1.cpm = 0 :=
  ⟨(window_accounting rngZero [trialIn, minuteIn] (setup rngZero).1).1,
   (window_accounting rngZero [] (setup rngZero).1).2 minuteIn rfl⟩

/-- Serial-channel events: the startup prints and the CSV records. -/
def isSerial : Event → Bool
  | Event.serialNum _ => true
  | Event.serialHeader => true
  | Event.serialReport _ _ => true
  | _ => false

/-- CSV report records. -/
def isReport : Event → Bool
  | Event.serialReport _ _ => true
  | _ => false

/-- One iteration prints nothing but its report: its serial events are its
report events, and there is exactly one report iff the minute fired. -/
lemma loop_serial (rng : Nat → Nat) (i : LoopInput) (s : LoopState) :
    (loop rng i s).2.filter isSerial = (loop rng i s).2.filter isReport ∧
    ((loop rng i s).2.filter isReport).length
      = (if i.minuteFire then 1 else 0) := by
  obtain ⟨ms, bp, tf, be, mf⟩ := i
  rw [loop]
  dsimp only
  cases tf
  · cases be <;> cases mf <;>
      simp [trialBlock, blinkBlock, minuteBlock, isSerial, isReport]
  · by_cases hr :
      rng (buttonBlock bp s).rngIndex < (buttonBlock bp s).threshold
    · cases be <;> cases mf <;>
        simp [trialBlock, blinkBlock, minuteBlock, hr, isSerial, isReport]
    · cases be <;> cases mf <;>
        simp [trialBlock, blinkBlock, minuteBlock, hr, isSerial, isReport]

/-- Over any run, the loop's serial output is exactly its report records,
one per minute fire. -/
lemma run_serial (rng : Nat → Nat) (inputs : List LoopInput) (s : LoopState) :
    (run rng inputs s).2.filter isSerial
      = (run rng inputs s).2.filter isReport ∧
    ((run rng inputs s).2.filter isReport).length
      = (inputs.filter (fun i => i.minuteFire)).length := by
  induction inputs generalizing s with
  | nil => exact ⟨rfl, rfl⟩
  | cons i rest ih =>
    rw [run]
    dsimp only
    constructor
    · rw [List.filter_append, List.filter_append, (loop_serial rng i s).1,
        (ih _).1]
    · rw [List.filter_append, List.length_append, (loop_serial rng i s).2,
        (ih _).2, List.filter_cons]
      cases hm : i.minuteFire <;> simp [Nat.add_comm]

/-- C9: the full serial stream is the five seeded draws, the header, and
then exactly one CSV record per reporting-window fire, in that order. -/
theorem serial_stream_format (rng : Nat → Nat) (inputs : List LoopInput) :
    ((setup rng).2 ++ (run rng inputs (setup rng).1).2).filter isSerial
      = [Event.serialNum (rng 0), Event.serialNum (rng 1),
         Event.serialNum (rng 2), Event.serialNum (rng 3),
         Event.serialNum (rng 4), Event.serialHeader]
        ++ (run rng inputs (setup rng).1).2.filter isReport ∧
    ((run rng inputs (setup rng).1).2.filter isReport).length
      = (inputs.filter (fun i => i.minuteFire)).length := by
  constructor
  · rw [List.filter_append, (run_serial rng inputs (setup rng).1).1]
    rfl
  · exact (run_serial rng inputs (setup rng).1).2

/-- The blink block can only lower the LED pin. -/
lemma blinkBlock_ledPin_false (e : Bool) (s : LoopState)
    (h : s.ledPin = false) : (blinkBlock e s).1.ledPin = false := by
  cases e <;> simp [blinkBlock, h]

/-- One iteration never raises the LED pin. -/
lemma loop_ledPin_false (rng : Nat → Nat) (i : LoopInput) (s : LoopState)
    (h : s.ledPin = false) : (loop rng i s).1.ledPin = false := by
  rw [loop]
  dsimp only
  rw [minuteBlock_ledPin]
  apply blinkBlock_ledPin_false
  rw [trialBlock_ledPin, buttonBlock_ledPin]
  exact h

/-- No run ever raises the LED pin. -/
lemma run_ledPin_false (rng : Nat → Nat) (inputs : List LoopInput)
    (s : LoopState) (h : s.ledPin = false) :
    (run rng inputs s).1.ledPin = false := by
  induction inputs generalizing s with
  | nil => exact h
  | cons i rest ih =>
    rw [run]
    dsimp only
    exact ih _ (loop_ledPin_false rng i s h)

/-- C4 refutation: the LED is never asserted. setup() writes LED_PIN low and
the only LED write in loop() is the low write on blink expiry, so from
startup the LED pin is false forever — even on a run whose one trial tick
fires a pulse (and does re-arm the blink timer). -/
theorem led_never_asserted (rng : Nat → Nat) (inputs : List LoopInput) :
    (run rng inputs (setup rng).1).1.ledPin = false ∧
    Event.pulseLow ∈ (run rngZero [trialIn] (setup rngZero).1).2 ∧
    Event.blinkRestart ∈ (run rngZero [trialIn] (setup rngZero).1).2 ∧
    (run rngZero [trialIn] (setup rngZero).1).1.ledPin = false := by
  refine ⟨run_ledPin_false rng inputs (setup rng).1 rfl, ?_, ?_, ?_⟩
  · decide
  · decide
  · decide

end PulseMaker

namespace PulseMaker

/-- C10: both threshold products are exact in 32-bit unsigned arithmetic:
HIGH_RATE * THRESHOLD_CONSTANT = 48000 * 16383 = 786384000 and
LOW_RATE * THRESHOLD_CONSTANT = 1200 * 16383 = 19659600, each below 2^32,
so the stored uint32 threshold equals the exact product with no wrap. -/
theorem threshold_products_exact :
    THRESHOLD_CONSTANT = 16383 ∧
    HIGH_RATE * THRESHOLD_CONSTANT = 786384000 ∧
    LOW_RATE * THRESHOLD_CONSTANT = 19659600 ∧
    HIGH_RATE * THRESHOLD_CONSTANT < 2 ^ 32 ∧
    LOW_RATE * THRESHOLD_CONSTANT < 2 ^ 32 ∧
    u32 (HIGH_RATE * THRESHOLD_CONSTANT) = HIGH_RATE * THRESHOLD_CONSTANT ∧
    u32 (LOW_RATE * THRESHOLD_CONSTANT) = LOW_RATE * THRESHOLD_CONSTANT := by
  decide

/-- C8: threshold is monotone in the target rate over the presets, and the
fast threshold strictly exceeds the slow threshold. -/
theorem presetThreshold_monotone (A B : RateSetting)
    (h : targetRate A > targetRate B) :
    presetThreshold A > presetThreshold B ∧
    presetThreshold RateSetting.fast > presetThreshold RateSetting.slow := by
  cases A <;> cases B <;> revert h <;> decide

/-- Witness for C8 at the concrete pair of presets. -/
theorem presetThreshold_monotone_witness :
    presetThreshold RateSetting.fast > presetThreshold RateSetting.slow :=
  (presetThreshold_monotone RateSetting.fast RateSetting.slow (by decide)).1

end PulseMaker
